import Mathlib

/-!
Shallow embedding of the nova compute API (src/nova/compute/api.py) for
verification of its natural-language specification.

The compute API is an instance lifecycle orchestrator.  Its collaborators
(the persistent record store, the quota subsystem, the image repository,
the messaging transport, the instance-type catalog) are external to the
given source file; they are modelled here as explicit state threaded
through every operation, following the collaborator contracts stated in
the specification.  All state that the python code reaches through
`self.db`, `rpc`, `quota`, `utils` and the image service lives in a single
`Store` record, so that every operation is a pure function
`... → Store → Store × Except Err α`.
-/

namespace Nova

/-- Security context of a caller (nova.context).  Only the fields the
compute API reads are modelled. -/
structure Context where
  is_admin : Bool
  user_id : String
  project_id : String
deriving DecidableEq

/-- context.elevated() : an administrative copy of the context. -/
def Context.elevated (ctx : Context) : Context :=
  { ctx with is_admin := true }

/-- Errors raised by the compute API and its collaborators.
notFound models exception.NotFound; quotaError models quota.QuotaError
(carrying the admissible count and the reason code); lockError models the
generic Exception raised by checks_instance_lock when the instance is
locked (carrying the wrapped operation's name); argError models the
generic Exception raised by the decorator's bare except clause; keyError
models a python KeyError from the instance-type catalog lookup. -/
inductive Err where
  | notFound : Err
  | quotaError : Nat → String → Err
  | lockError : String → Err
  | argError : Err
  | keyError : Err
deriving DecidableEq

/-- An instance record as persisted by the store.  Fields follow the
base_options dict of create_instances plus the identity, placement and
networking fields the code reads and writes.  Identifiers, MAC addresses
and reservation ids are modelled as naturals drawn from counters in the
store (the python code obtains them from the db layer and from
utils.generate_mac / utils.generate_uid). -/
structure Instance where
  id : Nat
  internal_id : Nat
  reservation_id : Nat
  image_id : String
  kernel_id : String
  ramdisk_id : String
  state_description : String
  state : Nat
  user_id : String
  project_id : String
  launch_time : String
  instance_type : String
  memory_mb : Nat
  vcpus : Nat
  local_gb : Nat
  display_name : String
  display_description : String
  user_data : String
  key_name : Option String
  key_data : Option String
  locked : Bool
  mac_address : Nat
  launch_index : Nat
  hostname : String
  host : String
  terminated_at : Option Nat
deriving DecidableEq

/-- A security group record (db.security_group_*). -/
structure SecurityGroup where
  id : Nat
  name : String
  description : String
  user_id : String
  project_id : String
deriving DecidableEq

/-- A key pair record (db.key_pair_get). -/
structure KeyPair where
  user_id : String
  name : String
  public_key : String
deriving DecidableEq

/-- Image metadata returned by image_service.show.  Only the keys read by
create_instances are modelled. -/
structure ImageMeta where
  kernelId : Option String
  ramdiskId : Option String
deriving DecidableEq

/-- A fire-and-forget message accepted by the transport (rpc.cast).
key is the routing key; method the remote method name; instance_id the
instance argument; topicArg the extra topic argument carried by the
run_instance scheduling message. -/
structure Msg where
  key : String
  method : String
  instance_id : Nat
  topicArg : Option String
deriving DecidableEq

/-- Sizing data of one entry of the static instance-type catalog
(nova.compute.instance_types.INSTANCE_TYPES). -/
structure TypeData where
  memory_mb : Nat
  vcpus : Nat
  local_gb : Nat
deriving DecidableEq

/-- The world state: the persistent store's tables, the image repository,
the transport's accepted messages, and the id / mac / uid counters that
model the external generators, plus the wall clock read by
time.strftime and datetime.utcnow. -/
structure Store where
  instances : List Instance
  security_groups : List SecurityGroup
  instance_security_groups : List (Nat × Nat)
  key_pairs : List KeyPair
  images : List (String × ImageMeta)
  casts : List Msg
  nextId : Nat
  nextInternalId : Nat
  nextGroupId : Nat
  macCtr : Nat
  uidCtr : Nat
  launch_clock : String
  now : Nat
deriving DecidableEq

/-- FLAGS values read by the compute API. -/
structure Flags where
  vpn_image_id : String
  null_kernel : String
  scheduler_topic : String
  compute_topic : String
deriving DecidableEq

/-- External collaborators that are functions rather than data: the quota
subsystem's allowed_instances and the FLAGS and the instance-type
catalog. -/
structure Env where
  flags : Flags
  allowed_instances : Context → Nat → String → Nat
  instance_types : List (String × TypeData)

/-- Freshness invariant of the store: every persisted record's id and
internal_id lie below the corresponding counters, so newly assigned
identifiers never collide with existing records. -/
def Store.WF (st : Store) : Prop :=
  ∀ r ∈ st.instances, r.id < st.nextId ∧ r.internal_id < st.nextInternalId

instance (st : Store) : Decidable st.WF := by
  unfold Store.WF
  infer_instance

/-- db.instance_get_by_internal_id: first record whose internal_id
matches. -/
def lookup_internal (st : Store) (iid : Nat) : Option Instance :=
  st.instances.find? (fun r => r.internal_id == iid)

/-- db.instance_get_by_internal_id, raising NotFound when absent. -/
def instance_get_by_internal_id (_ctx : Context) (instance_id : Nat)
    (st : Store) : Except Err Instance :=
  match lookup_internal st instance_id with
  | some r => .ok r
  | none => .error .notFound

/-- Fields an update_instance call may set.  Only the keyword sets the
source actually passes are representable: the hostname (and dead
display_name branch) update of create_instances, and the terminating
update of delete_instance. -/
structure UpdateFields where
  hostname : Option String
  display_name : Option String
  state_description : Option String
  state : Option Nat
  terminated_at : Option Nat
deriving DecidableEq

/-- Apply an update dict to a record: present keys overwrite, absent keys
keep the stored value. -/
def applyUpdates (r : Instance) (v : UpdateFields) : Instance :=
  { r with
    hostname := match v.hostname with | some h => h | none => r.hostname
    display_name := match v.display_name with | some d => d | none => r.display_name
    state_description := match v.state_description with | some s => s | none => r.state_description
    state := match v.state with | some s => s | none => r.state
    terminated_at := match v.terminated_at with | some t => some t | none => r.terminated_at }

/-- db.instance_update: look up by primary id, apply the fields, persist,
return the updated record.  NotFound when no record has that id. -/
def instance_update (_ctx : Context) (instance_id : Nat) (values : UpdateFields)
    (st : Store) : Except Err (Instance × Store) :=
  match st.instances.find? (fun r => r.id == instance_id) with
  | none => .error .notFound
  | some r =>
      .ok (applyUpdates r values,
        { st with instances :=
            st.instances.map (fun q => if q.id == instance_id then applyUpdates q values else q) })

/-- db.instance_destroy: remove the record with the given primary id. -/
def instance_destroy (_ctx : Context) (instance_id : Nat) (st : Store) : Store :=
  { st with instances := st.instances.filter (fun r => r.id != instance_id) }

/-- rpc.cast: fire-and-forget, the transport accepts the message. -/
def rpc_cast (msg : Msg) (st : Store) : Store :=
  { st with casts := st.casts ++ [msg] }

/-- Modelled from the spec: the persistent store's queue_route_for
(db.queue_get_for, not part of the given source) derives the
host-specific routing key of a topic, modelled as the dotted pair. -/
def queue_get_for (_ctx : Context) (topic host : String) : String :=
  topic ++ "." ++ host

/-- db.security_group_get_by_name within a project scope. -/
def security_group_get_by_name (_ctx : Context) (project_id name : String)
    (st : Store) : Except Err SecurityGroup :=
  match st.security_groups.find? (fun g => g.project_id == project_id && g.name == name) with
  | some g => .ok g
  | none => .error .notFound

/-- db.security_group_create. -/
def security_group_create (_ctx : Context) (name description user_id project_id : String)
    (st : Store) : SecurityGroup × Store :=
  let g : SecurityGroup :=
    { id := st.nextGroupId, name := name, description := description,
      user_id := user_id, project_id := project_id }
  (g, { st with security_groups := st.security_groups ++ [g],
                nextGroupId := st.nextGroupId + 1 })

/-- db.key_pair_get. -/
def key_pair_get (_ctx : Context) (user_id name : String) (st : Store) :
    Except Err KeyPair :=
  match st.key_pairs.find? (fun k => k.user_id == user_id && k.name == name) with
  | some k => .ok k
  | none => .error .notFound

/-- image_service.show: metadata of an image, NotFound when absent. -/
def image_show (_ctx : Context) (image_id : String) (st : Store) :
    Except Err ImageMeta :=
  match st.images.find? (fun p => p.1 == image_id) with
  | some p => .ok p.2
  | none => .error .notFound

/-- Modelled from the spec: utils.generate_mac (not part of the given
source) yields a fresh MAC address per call, modelled by a counter. -/
def generate_mac (st : Store) : Nat × Store :=
  (st.macCtr, { st with macCtr := st.macCtr + 1 })

/-- Modelled from the spec: utils.generate_uid (not part of the given
source) yields a fresh reservation id per call, modelled by a counter. -/
def generate_uid (st : Store) : Nat × Store :=
  (st.uidCtr, { st with uidCtr := st.uidCtr + 1 })

/-- Default function to generate a hostname given an instance reference
(generate_default_hostname). -/
def generate_default_hostname (internal_id : Nat) : String :=
  toString internal_id

/-- db.instance_get_by_internal_id through the API's get_instance. -/
def get_instance (ctx : Context) (instance_id : Nat) (st : Store) :
    Except Err Instance :=
  instance_get_by_internal_id ctx instance_id st

/-- get_lock: the boolean state of the instance's lock flag, resolved by
internal id. -/
def get_lock (ctx : Context) (instance_id : Nat) (st : Store) :
    Except Err Bool :=
  match get_instance ctx instance_id st with
  | .error e => .error e
  | .ok inst => .ok inst.locked

/-- checks_instance_lock: the decorator preventing action against locked
instances unless the caller is admin.  The argument extraction of the
python decorator is rendered as a typed (context, instance_id) contract;
the decorator's bare except clause, which catches any failure inside the
try block including a NotFound raised by get_lock, is modelled by mapping
every get_lock failure to the generic argError exception the decorator
raises. -/
def checks_instance_lock {α : Type} (opname : String)
    (function : Context → Nat → Store → Store × Except Err α)
    (ctx : Context) (instance_id : Nat) (st : Store) : Store × Except Err α :=
  match get_lock ctx instance_id st with
  | .error _ => (st, .error .argError)
  | .ok locked =>
      if ctx.is_admin || !locked then function ctx instance_id st
      else (st, .error (.lockError opname))

/-- Body of update_instance (the wrapped function under the decorator):
updates the instance in the datastore. -/
def update_instance_unchecked (kwargs : UpdateFields) (ctx : Context)
    (instance_id : Nat) (st : Store) : Store × Except Err Instance :=
  match instance_update ctx instance_id kwargs st with
  | .error e => (st, .error e)
  | .ok (inst, st1) => (st1, .ok inst)

/-- update_instance: lock-guarded datastore update. -/
def update_instance (ctx : Context) (instance_id : Nat) (kwargs : UpdateFields)
    (st : Store) : Store × Except Err Instance :=
  checks_instance_lock "update_instance" (update_instance_unchecked kwargs)
    ctx instance_id st

/-- The update dict holding only a hostname, as passed by
create_instances (the display_name branch of the source is dead: created
records always carry a display_name field). -/
def hostnameUpdate (h : String) : UpdateFields :=
  { hostname := some h, display_name := none, state_description := none,
    state := none, terminated_at := none }

/-- The update dict of delete_instance: terminating, state 0, terminated
timestamp. -/
def terminatingUpdate (t : Nat) : UpdateFields :=
  { hostname := none, display_name := none,
    state_description := some "terminating", state := some 0,
    terminated_at := some t }

/-- The run_instance scheduling message cast to the scheduler topic for
one created instance. -/
def runInstanceMsg (flags : Flags) (instance_id : Nat) : Msg :=
  { key := flags.scheduler_topic, method := "run_instance",
    instance_id := instance_id, topicArg := some flags.compute_topic }

/-- ensure_default_security_group: create the project's default group if
it does not already exist. -/
def ensure_default_security_group (ctx : Context) (st : Store) : Store :=
  match security_group_get_by_name ctx ctx.project_id "default" st with
  | .ok _ => st
  | .error _ =>
      (security_group_create ctx "default" "default" ctx.user_id ctx.project_id st).2

/-- The security_group argument of create_instances: python None, a
single name, or a list of names. -/
inductive SecGroupArg where
  | noneArg : SecGroupArg
  | one : String → SecGroupArg
  | many : List String → SecGroupArg
deriving DecidableEq

/-- Normalization of the security_group argument performed by
create_instances: None becomes the default list, a single name becomes a
one-element list. -/
def normalize_security_group : SecGroupArg → List String
  | .noneArg => ["default"]
  | .one s => [s]
  | .many l => l

/-- Resolve each requested group name to its id within the caller's
project; the first unresolvable name fails with NotFound. -/
def resolve_group_ids (ctx : Context) : List String → Store → Except Err (List Nat)
  | [], _ => .ok []
  | n :: rest, st =>
      match security_group_get_by_name ctx ctx.project_id n st with
      | .error e => .error e
      | .ok g =>
          match resolve_group_ids ctx rest st with
          | .error e => .error e
          | .ok ids => .ok (g.id :: ids)

/-- Python truthiness of an optional string: None and the empty string
are falsy. -/
def truthy : Option String → Bool
  | none => false
  | some s => s != ""

/-- The access check of create_instances on a resolved kernel or ramdisk
id: a truthy id must itself resolve in the image repository. -/
def check_image_access (ctx : Context) (oid : Option String) (st : Store) :
    Except Err Unit :=
  if truthy oid then
    match image_show ctx (oid.getD "") st with
    | .error e => .error e
    | .ok _ => .ok ()
  else .ok ()

/-- Boot spec resolution of create_instances: skipped entirely for the
VPN image; otherwise kernel and ramdisk default from the image metadata,
the null-kernel sentinel forces both to none, and any remaining truthy
kernel or ramdisk must itself resolve in the image repository. -/
def resolve_boot (flags : Flags) (ctx : Context) (image_id : String)
    (kernel_id ramdisk_id : Option String) (st : Store) :
    Except Err (Option String × Option String) :=
  if image_id == flags.vpn_image_id then .ok (kernel_id, ramdisk_id)
  else
    match image_show ctx image_id st with
    | .error e => .error e
    | .ok image =>
        let kid := match kernel_id with | some k => some k | none => image.kernelId
        let rid := match ramdisk_id with | some r => some r | none => image.ramdiskId
        let kid2 := if kid == some flags.null_kernel then none else kid
        let rid2 := if kid == some flags.null_kernel then none else rid
        match check_image_access ctx kid2 st with
        | .error e => .error e
        | .ok _ =>
            match check_image_access ctx rid2 st with
            | .error e => .error e
            | .ok _ => .ok (kid2, rid2)

/-- key_data resolution of create_instances: when key_data is absent and
a (truthy) key_name is given, the public key is read from the key pair
store. -/
def resolve_key_data (ctx : Context) (key_name key_data : Option String)
    (st : Store) : Except Err (Option String) :=
  match key_data, key_name with
  | none, some n =>
      if n == "" then .ok none
      else
        match key_pair_get ctx ctx.user_id n st with
        | .error e => .error e
        | .ok kp => .ok (some kp.public_key)
  | kd, _ => .ok kd

/-- The base_options dict of create_instances, shared by every record of
one batch. -/
structure BaseOptions where
  reservation_id : Nat
  image_id : String
  kernel_id : String
  ramdisk_id : String
  state_description : String
  user_id : String
  project_id : String
  launch_time : String
  instance_type : String
  memory_mb : Nat
  vcpus : Nat
  local_gb : Nat
  display_name : String
  display_description : String
  user_data : String
  key_name : Option String
  key_data : Option String
  locked : Bool
deriving DecidableEq

/-- Build the base_options dict exactly as create_instances does: kernel
and ramdisk fall back to the empty string, state_description is
scheduling, sizing is copied from the catalog entry, locked is false. -/
def mkBase (ctx : Context) (instance_type image_id : String)
    (kid rid : Option String) (display_name description : String)
    (key_name kd2 : Option String) (user_data : Option String)
    (td : TypeData) (uid : Nat) (clock : String) : BaseOptions :=
  { reservation_id := uid, image_id := image_id,
    kernel_id := kid.getD "", ramdisk_id := rid.getD "",
    state_description := "scheduling",
    user_id := ctx.user_id, project_id := ctx.project_id,
    launch_time := clock, instance_type := instance_type,
    memory_mb := td.memory_mb, vcpus := td.vcpus, local_gb := td.local_gb,
    display_name := display_name, display_description := description,
    user_data := user_data.getD "", key_name := key_name, key_data := kd2,
    locked := false }

/-- The record dict passed to db.instance_create: base_options plus the
per-iteration mac_address and launch_index; placement and derived fields
start at their store defaults. -/
def mkInst (base : BaseOptions) (mac num id internal_id : Nat) : Instance :=
  { id := id, internal_id := internal_id,
    reservation_id := base.reservation_id, image_id := base.image_id,
    kernel_id := base.kernel_id, ramdisk_id := base.ramdisk_id,
    state_description := base.state_description, state := 0,
    user_id := base.user_id, project_id := base.project_id,
    launch_time := base.launch_time, instance_type := base.instance_type,
    memory_mb := base.memory_mb, vcpus := base.vcpus,
    local_gb := base.local_gb, display_name := base.display_name,
    display_description := base.display_description,
    user_data := base.user_data, key_name := base.key_name,
    key_data := base.key_data, locked := base.locked,
    mac_address := mac, launch_index := num, hostname := "", host := "",
    terminated_at := none }

/-- db.instance_create: persist a new record under fresh id and
internal_id. -/
def instance_create (_ctx : Context) (base : BaseOptions) (mac num : Nat)
    (st : Store) : Instance × Store :=
  let inst := mkInst base mac num st.nextId st.nextInternalId
  (inst, { st with instances := st.instances ++ [inst],
                   nextId := st.nextId + 1,
                   nextInternalId := st.nextInternalId + 1 })

/-- db.instance_add_security_group. -/
def instance_add_security_group (_ctx : Context) (instance_id group_id : Nat)
    (st : Store) : Store :=
  { st with instance_security_groups :=
      st.instance_security_groups ++ [(instance_id, group_id)] }

/-- The security-group association loop of create_instances, run under
the elevated context. -/
def add_security_groups (ctx : Context) (instance_id : Nat) :
    List Nat → Store → Store
  | [], st => st
  | g :: gs, st =>
      add_security_groups ctx instance_id gs
        (instance_add_security_group ctx instance_id g st)

/-- One iteration of the creation loop of create_instances: generate a
mac, persist the record, write its group associations, set the hostname
through the lock-guarded update_instance (passing the record's primary
id, as the source does), then cast the run_instance scheduling message. -/
def run_one (env : Env) (ctx : Context) (base : BaseOptions) (sgs : List Nat)
    (generate_hostname : Nat → String) (num : Nat) (st : Store) :
    Store × Except Err Instance :=
  let mac_st := generate_mac st
  let inst_st := instance_create ctx base mac_st.1 num mac_st.2
  let st3 := add_security_groups ctx.elevated inst_st.1.id sgs inst_st.2
  match update_instance ctx inst_st.1.id
          (hostnameUpdate (generate_hostname inst_st.1.internal_id)) st3 with
  | (st4, .error e) => (st4, .error e)
  | (st4, .ok inst2) =>
      (rpc_cast (runInstanceMsg env.flags inst_st.1.id) st4, .ok inst2)

/-- The creation loop of create_instances over the launch indices; a
failure aborts the loop but keeps the state reached so far (records
already persisted and messages already cast are not rolled back). -/
def run_loop (env : Env) (ctx : Context) (base : BaseOptions) (sgs : List Nat)
    (generate_hostname : Nat → String) :
    List Nat → Store → Store × Except Err (List Instance)
  | [], st => (st, .ok [])
  | num :: rest, st =>
      match run_one env ctx base sgs generate_hostname num st with
      | (st5, .error e) => (st5, .error e)
      | (st5, .ok inst2) =>
          match run_loop env ctx base sgs generate_hostname rest st5 with
          | (st6, .error e) => (st6, .error e)
          | (st6, .ok insts) => (st6, .ok (inst2 :: insts))

/-- create_instances: quota gate, boot spec resolution, security group
resolution, key resolution, catalog lookup, then the creation loop. -/
def create_instances (env : Env) (ctx : Context)
    (instance_type image_id : String) (min_count max_count : Nat)
    (kernel_id ramdisk_id : Option String)
    (display_name description : String) (key_name key_data : Option String)
    (security_group : SecGroupArg) (user_data : Option String)
    (generate_hostname : Nat → String) (st : Store) :
    Store × Except Err (List Instance) :=
  let num_instances := env.allowed_instances ctx max_count instance_type
  if num_instances < min_count then
    (st, .error (.quotaError num_instances "InstanceLimitExceeded"))
  else
    match resolve_boot env.flags ctx image_id kernel_id ramdisk_id st with
    | .error e => (st, .error e)
    | .ok kidrid =>
        let st1 := ensure_default_security_group ctx st
        match resolve_group_ids ctx (normalize_security_group security_group) st1 with
        | .error e => (st1, .error e)
        | .ok security_groups =>
            match resolve_key_data ctx key_name key_data st1 with
            | .error e => (st1, .error e)
            | .ok kd2 =>
                match env.instance_types.find? (fun p => p.1 == instance_type) with
                | none => (st1, .error .keyError)
                | some p =>
                    let uid_st := generate_uid st1
                    let base := mkBase ctx instance_type image_id
                      kidrid.1 kidrid.2 display_name description
                      key_name kd2 user_data p.2 uid_st.1 st1.launch_clock
                    run_loop env ctx base security_groups generate_hostname
                      (List.range num_instances) uid_st.2

/-- Body of delete_instance (the wrapped function under the decorator):
fetch by internal id, silently return when already terminating, mark
terminating through the lock-guarded update_instance (passing the
record's primary id), then cast terminate_instance to the host's compute
queue when placed, or destroy the record directly when unplaced. -/
def delete_instance_unchecked (flags : Flags) (ctx : Context)
    (instance_id : Nat) (st : Store) : Store × Except Err Unit :=
  match instance_get_by_internal_id ctx instance_id st with
  | .error e => (st, .error e)
  | .ok inst =>
      if inst.state_description == "terminating" then (st, .ok ())
      else
        match update_instance ctx inst.id (terminatingUpdate st.now) st with
        | (st1, .error e) => (st1, .error e)
        | (st1, .ok _) =>
            if inst.host != "" then
              (rpc_cast { key := queue_get_for ctx flags.compute_topic inst.host,
                          method := "terminate_instance",
                          instance_id := inst.id, topicArg := none } st1, .ok ())
            else
              (instance_destroy ctx inst.id st1, .ok ())

/-- delete_instance: lock-guarded termination. -/
def delete_instance (flags : Flags) (ctx : Context) (instance_id : Nat)
    (st : Store) : Store × Except Err Unit :=
  checks_instance_lock "delete_instance" (delete_instance_unchecked flags)
    ctx instance_id st

/-- Shared body of the fire-and-forget host operations (reboot, pause,
unpause, suspend, resume, rescue, unrescue, lock, unlock): fetch by
internal id, cast the method to the compute queue derived from the
instance's host. -/
def host_cast_unchecked (method : String) (flags : Flags) (ctx : Context)
    (instance_id : Nat) (st : Store) : Store × Except Err Unit :=
  match instance_get_by_internal_id ctx instance_id st with
  | .error e => (st, .error e)
  | .ok inst =>
      (rpc_cast { key := queue_get_for ctx flags.compute_topic inst.host,
                  method := method, instance_id := inst.id,
                  topicArg := none } st, .ok ())

/-- reboot: lock-guarded reboot_instance cast. -/
def reboot (flags : Flags) (ctx : Context) (instance_id : Nat) (st : Store) :
    Store × Except Err Unit :=
  checks_instance_lock "reboot" (host_cast_unchecked "reboot_instance" flags)
    ctx instance_id st

/-- pause: lock-guarded pause_instance cast. -/
def pause (flags : Flags) (ctx : Context) (instance_id : Nat) (st : Store) :
    Store × Except Err Unit :=
  checks_instance_lock "pause" (host_cast_unchecked "pause_instance" flags)
    ctx instance_id st

/-- unpause: lock-guarded unpause_instance cast. -/
def unpause (flags : Flags) (ctx : Context) (instance_id : Nat) (st : Store) :
    Store × Except Err Unit :=
  checks_instance_lock "unpause" (host_cast_unchecked "unpause_instance" flags)
    ctx instance_id st

/-- suspend: lock-guarded suspend_instance cast. -/
def suspend (flags : Flags) (ctx : Context) (instance_id : Nat) (st : Store) :
    Store × Except Err Unit :=
  checks_instance_lock "suspend" (host_cast_unchecked "suspend_instance" flags)
    ctx instance_id st

/-- resume: lock-guarded resume_instance cast. -/
def resume (flags : Flags) (ctx : Context) (instance_id : Nat) (st : Store) :
    Store × Except Err Unit :=
  checks_instance_lock "resume" (host_cast_unchecked "resume_instance" flags)
    ctx instance_id st

/-- rescue: lock-guarded rescue_instance cast. -/
def rescue (flags : Flags) (ctx : Context) (instance_id : Nat) (st : Store) :
    Store × Except Err Unit :=
  checks_instance_lock "rescue" (host_cast_unchecked "rescue_instance" flags)
    ctx instance_id st

/-- unrescue: lock-guarded unrescue_instance cast. -/
def unrescue (flags : Flags) (ctx : Context) (instance_id : Nat) (st : Store) :
    Store × Except Err Unit :=
  checks_instance_lock "unrescue" (host_cast_unchecked "unrescue_instance" flags)
    ctx instance_id st

/-- lock: NOT decorated in the source; casts lock_instance directly. -/
def lock (flags : Flags) (ctx : Context) (instance_id : Nat) (st : Store) :
    Store × Except Err Unit :=
  host_cast_unchecked "lock_instance" flags ctx instance_id st

/-- unlock: NOT decorated in the source; casts unlock_instance
directly. -/
def unlock (flags : Flags) (ctx : Context) (instance_id : Nat) (st : Store) :
    Store × Except Err Unit :=
  host_cast_unchecked "unlock_instance" flags ctx instance_id st

/-- The store state reached by one loop iteration of create_instances
just before its nested update_instance call: mac consumed, record
persisted under fresh identifiers, group associations written. -/
def createStep (base : BaseOptions) (sgs : List Nat) (num : Nat)
    (st : Store) : Store :=
  { st with
      instances := st.instances ++
        [mkInst base st.macCtr num st.nextId st.nextInternalId],
      instance_security_groups := st.instance_security_groups ++
        sgs.map (fun g => (st.nextId, g)),
      macCtr := st.macCtr + 1, nextId := st.nextId + 1,
      nextInternalId := st.nextInternalId + 1 }

/-!  Helper lemmas about the lock guard and the store operations. -/

theorem get_lock_of_lookup (ctx : Context) (iid : Nat) (st : Store)
    (r : Instance) (h : lookup_internal st iid = some r) :
    get_lock ctx iid st = .ok r.locked := by
  unfold get_lock get_instance instance_get_by_internal_id
  rw [h]

theorem get_lock_of_none (ctx : Context) (iid : Nat) (st : Store)
    (h : lookup_internal st iid = none) :
    get_lock ctx iid st = .error .notFound := by
  unfold get_lock get_instance instance_get_by_internal_id
  rw [h]

theorem guard_notfound {α : Type} (opname : String)
    (f : Context → Nat → Store → Store × Except Err α)
    (ctx : Context) (iid : Nat) (st : Store) (e : Err)
    (h : get_lock ctx iid st = .error e) :
    checks_instance_lock opname f ctx iid st = (st, .error .argError) := by
  unfold checks_instance_lock
  rw [h]

theorem guard_locked_nonadmin {α : Type} (opname : String)
    (f : Context → Nat → Store → Store × Except Err α)
    (ctx : Context) (iid : Nat) (st : Store)
    (h : get_lock ctx iid st = .ok true) (ha : ctx.is_admin = false) :
    checks_instance_lock opname f ctx iid st = (st, .error (.lockError opname)) := by
  unfold checks_instance_lock
  rw [h]
  simp [ha]

theorem guard_admin {α : Type} (opname : String)
    (f : Context → Nat → Store → Store × Except Err α)
    (ctx : Context) (iid : Nat) (st : Store) (b : Bool)
    (h : get_lock ctx iid st = .ok b) (ha : ctx.is_admin = true) :
    checks_instance_lock opname f ctx iid st = f ctx iid st := by
  unfold checks_instance_lock
  rw [h]
  simp [ha]

theorem guard_unlocked {α : Type} (opname : String)
    (f : Context → Nat → Store → Store × Except Err α)
    (ctx : Context) (iid : Nat) (st : Store)
    (h : get_lock ctx iid st = .ok false) :
    checks_instance_lock opname f ctx iid st = f ctx iid st := by
  unfold checks_instance_lock
  rw [h]
  simp

theorem ensure_default_preserves (ctx : Context) (st : Store) :
    (ensure_default_security_group ctx st).instances = st.instances ∧
    (ensure_default_security_group ctx st).casts = st.casts ∧
    (ensure_default_security_group ctx st).nextId = st.nextId ∧
    (ensure_default_security_group ctx st).nextInternalId = st.nextInternalId ∧
    (ensure_default_security_group ctx st).macCtr = st.macCtr ∧
    (ensure_default_security_group ctx st).uidCtr = st.uidCtr ∧
    (ensure_default_security_group ctx st).launch_clock = st.launch_clock := by
  unfold ensure_default_security_group
  cases security_group_get_by_name ctx ctx.project_id "default" st with
  | error e => simp [security_group_create]
  | ok g => simp

@[simp] theorem applyUpdates_id (r : Instance) (v : UpdateFields) :
    (applyUpdates r v).id = r.id := rfl

@[simp] theorem applyUpdates_internal_id (r : Instance) (v : UpdateFields) :
    (applyUpdates r v).internal_id = r.internal_id := rfl

@[simp] theorem applyUpdates_hostnameUpdate (r : Instance) (h : String) :
    applyUpdates r (hostnameUpdate h) = { r with hostname := h } := rfl

@[simp] theorem mkInst_id (base : BaseOptions) (mac num i j : Nat) :
    (mkInst base mac num i j).id = i := rfl

@[simp] theorem mkInst_internal_id (base : BaseOptions) (mac num i j : Nat) :
    (mkInst base mac num i j).internal_id = j := rfl

@[simp] theorem mkInst_launch_index (base : BaseOptions) (mac num i j : Nat) :
    (mkInst base mac num i j).launch_index = num := rfl

@[simp] theorem mkInst_mac_address (base : BaseOptions) (mac num i j : Nat) :
    (mkInst base mac num i j).mac_address = mac := rfl

@[simp] theorem mkInst_reservation_id (base : BaseOptions) (mac num i j : Nat) :
    (mkInst base mac num i j).reservation_id = base.reservation_id := rfl

@[simp] theorem mkInst_state_description (base : BaseOptions) (mac num i j : Nat) :
    (mkInst base mac num i j).state_description = base.state_description := rfl

@[simp] theorem mkInst_kernel_id (base : BaseOptions) (mac num i j : Nat) :
    (mkInst base mac num i j).kernel_id = base.kernel_id := rfl

@[simp] theorem mkInst_ramdisk_id (base : BaseOptions) (mac num i j : Nat) :
    (mkInst base mac num i j).ramdisk_id = base.ramdisk_id := rfl

theorem add_security_groups_eq (ctx : Context) (iid : Nat) (sgs : List Nat)
    (st : Store) :
    add_security_groups ctx iid sgs st =
      { st with instance_security_groups :=
          st.instance_security_groups ++ sgs.map (fun g => (iid, g)) } := by
  induction sgs generalizing st with
  | nil => simp [add_security_groups]
  | cons g t ih =>
      rw [add_security_groups, ih]
      simp [instance_add_security_group]

theorem instance_update_elim (ctx : Context) (i : Nat) (upd : UpdateFields)
    (st : Store) (pr : Instance × Store)
    (h : instance_update ctx i upd st = .ok pr) :
    ∃ q0, st.instances.find? (fun r => r.id == i) = some q0 ∧
      pr = (applyUpdates q0 upd,
        { st with instances :=
            st.instances.map (fun q => if q.id == i then applyUpdates q upd else q) }) := by
  unfold instance_update at h
  cases hf : st.instances.find? (fun r => r.id == i) with
  | none => rw [hf] at h; simp at h
  | some q0 =>
      rw [hf] at h
      simp only [Except.ok.injEq] at h
      exact ⟨q0, rfl, h.symm⟩

theorem bool_eq_false_of_ne_true (b : Bool) (h : ¬ b = true) : b = false := by
  cases b
  · rfl
  · exact absurd rfl h

theorem update_instance_ok_elim (ctx : Context) (i : Nat) (upd : UpdateFields)
    (st st4 : Store) (inst2 : Instance)
    (hrun : update_instance ctx i upd st = (st4, .ok inst2)) :
    ∃ q0, st.instances.find? (fun r => r.id == i) = some q0 ∧
      inst2 = applyUpdates q0 upd ∧
      st4 = { st with instances :=
        st.instances.map (fun q => if q.id == i then applyUpdates q upd else q) } := by
  have hbody : update_instance_unchecked upd ctx i st = (st4, .ok inst2) := by
    cases hgl : get_lock ctx i st with
    | error e =>
        rw [update_instance, guard_notfound _ _ ctx i st e hgl] at hrun
        simp at hrun
    | ok locked =>
        cases locked with
        | false =>
            rw [update_instance, guard_unlocked _ _ ctx i st hgl] at hrun
            exact hrun
        | true =>
            by_cases ha : ctx.is_admin = true
            · rw [update_instance, guard_admin _ _ ctx i st true hgl ha] at hrun
              exact hrun
            · rw [update_instance, guard_locked_nonadmin _ _ ctx i st hgl
                (bool_eq_false_of_ne_true _ ha)] at hrun
              simp at hrun
  unfold update_instance_unchecked at hbody
  cases hiu : instance_update ctx i upd st with
  | error e => rw [hiu] at hbody; simp at hbody
  | ok pr =>
      obtain ⟨q0, hf, hp⟩ := instance_update_elim ctx i upd st pr hiu
      rw [hiu, hp] at hbody
      simp only [Prod.mk.injEq, Except.ok.injEq] at hbody
      exact ⟨q0, hf, hbody.2.symm, hbody.1.symm⟩

theorem find_id_append_last (pre : List Instance) (inst : Instance)
    (hfresh : ∀ q ∈ pre, q.id ≠ inst.id) :
    (pre ++ [inst]).find? (fun r => r.id == inst.id) = some inst := by
  induction pre with
  | nil => simp
  | cons a t ih =>
      have ha : ((fun r : Instance => r.id == inst.id) a) = false := by
        simpa using hfresh a (List.mem_cons_self a t)
      rw [List.cons_append, List.find?_cons_of_neg _ (by simp [ha])]
      exact ih (fun q hq => hfresh q (List.mem_cons_of_mem a hq))

theorem map_update_append_last (pre : List Instance) (inst : Instance)
    (upd : UpdateFields) (hfresh : ∀ q ∈ pre, q.id ≠ inst.id) :
    (pre ++ [inst]).map
        (fun q => if q.id == inst.id then applyUpdates q upd else q)
      = pre ++ [applyUpdates inst upd] := by
  induction pre with
  | nil => simp
  | cons a t ih =>
      have ha : (a.id == inst.id) = false := by
        simpa using hfresh a (List.mem_cons_self a t)
      rw [List.cons_append, List.map_cons, ha]
      simp only [Bool.false_eq_true, if_false, List.cons_append]
      rw [ih (fun q hq => hfresh q (List.mem_cons_of_mem a hq))]

theorem update_instance_ok_fresh (ctx : Context) (upd : UpdateFields)
    (stA st4 : Store) (pre : List Instance) (inst iu : Instance)
    (hst : stA.instances = pre ++ [inst])
    (hfresh : ∀ q ∈ pre, q.id ≠ inst.id)
    (hrun : update_instance ctx inst.id upd stA = (st4, .ok iu)) :
    iu = applyUpdates inst upd ∧
    st4 = { stA with instances := pre ++ [applyUpdates inst upd] } := by
  obtain ⟨q0, hf, hiu, hst4⟩ :=
    update_instance_ok_elim ctx inst.id upd stA st4 iu hrun
  rw [hst, find_id_append_last pre inst hfresh] at hf
  injection hf with hq0
  subst hq0
  refine ⟨hiu, ?_⟩
  rw [hst4, hst, map_update_append_last pre inst upd hfresh]

theorem lookup_internal_append_none (l : List Instance) (inst : Instance)
    (iid : Nat) (st : Store) (hst : st.instances = l ++ [inst])
    (hmiss : ∀ q ∈ l, q.internal_id ≠ iid) (hinst : inst.internal_id ≠ iid) :
    lookup_internal st iid = none := by
  unfold lookup_internal
  rw [hst, List.find?_eq_none]
  intro x hx
  simp only [List.mem_append, List.mem_singleton] at hx
  rcases hx with hx | hx
  · simpa using hmiss x hx
  · subst hx
    simpa using hinst

theorem update_instance_lookup_none (ctx : Context) (i : Nat)
    (upd : UpdateFields) (st : Store) (h : lookup_internal st i = none) :
    update_instance ctx i upd st = (st, .error .argError) := by
  rw [update_instance]
  exact guard_notfound _ _ ctx i st .notFound (get_lock_of_none ctx i st h)

theorem run_one_eq (env : Env) (ctx : Context) (base : BaseOptions)
    (sgs : List Nat) (gh : Nat → String) (num : Nat) (st : Store) :
    run_one env ctx base sgs gh num st =
      match update_instance ctx st.nextId
              (hostnameUpdate (gh st.nextInternalId))
              (createStep base sgs num st) with
      | (st4, .error e) => (st4, .error e)
      | (st4, .ok inst2) =>
          (rpc_cast (runInstanceMsg env.flags st.nextId) st4, .ok inst2) := by
  unfold run_one
  simp only [generate_mac, instance_create]
  rw [add_security_groups_eq]
  rfl

theorem run_one_ok (env : Env) (ctx : Context) (base : BaseOptions)
    (sgs : List Nat) (gh : Nat → String) (num : Nat) (st st5 : Store)
    (inst2 : Instance) (hWF : Store.WF st)
    (hrun : run_one env ctx base sgs gh num st = (st5, .ok inst2)) :
    inst2 = { mkInst base st.macCtr num st.nextId st.nextInternalId with
              hostname := gh st.nextInternalId } ∧
    st5 = { createStep base sgs num st with
            instances := st.instances ++ [inst2],
            casts := st.casts ++ [runInstanceMsg env.flags st.nextId] } := by
  rw [run_one_eq] at hrun
  rcases hu : update_instance ctx st.nextId
      (hostnameUpdate (gh st.nextInternalId)) (createStep base sgs num st)
    with ⟨st4, ru⟩
  rw [hu] at hrun
  cases ru with
  | error e => simp at hrun
  | ok iu =>
      simp only [Prod.mk.injEq, Except.ok.injEq] at hrun
      have hfresh : ∀ q ∈ st.instances,
          q.id ≠ (mkInst base st.macCtr num st.nextId st.nextInternalId).id := by
        intro q hq
        simpa using Nat.ne_of_lt (hWF q hq).1
      obtain ⟨hiu, hst4⟩ := update_instance_ok_fresh ctx
        (hostnameUpdate (gh st.nextInternalId)) (createStep base sgs num st)
        st4 st.instances (mkInst base st.macCtr num st.nextId st.nextInternalId)
        iu rfl hfresh hu
      constructor
      · rw [← hrun.2, hiu]
        simp
      · rw [← hrun.1, hst4, ← hrun.2, hiu]
        simp [rpc_cast, createStep]

theorem run_one_guard_fail (env : Env) (ctx : Context) (base : BaseOptions)
    (sgs : List Nat) (gh : Nat → String) (num : Nat) (st : Store)
    (hmiss : ∀ q ∈ st.instances, q.internal_id ≠ st.nextId)
    (hneq : st.nextInternalId ≠ st.nextId) :
    run_one env ctx base sgs gh num st =
      (createStep base sgs num st, .error .argError) := by
  rw [run_one_eq]
  rw [update_instance_lookup_none ctx st.nextId
    (hostnameUpdate (gh st.nextInternalId)) (createStep base sgs num st)
    (lookup_internal_append_none st.instances
      (mkInst base st.macCtr num st.nextId st.nextInternalId) st.nextId
      (createStep base sgs num st) rfl hmiss (by simpa using hneq))]

theorem run_loop_ok (env : Env) (ctx : Context) (base : BaseOptions)
    (sgs : List Nat) (gh : Nat → String) :
    ∀ (nums : List Nat) (st st6 : Store) (out : List Instance),
    Store.WF st →
    run_loop env ctx base sgs gh nums st = (st6, .ok out) →
    out.length = nums.length ∧
    (∀ (i : Nat) (hi : i < out.length) (hn : i < nums.length),
      (out.get ⟨i, hi⟩).launch_index = nums.get ⟨i, hn⟩) ∧
    (∀ r ∈ out, r.reservation_id = base.reservation_id ∧
      r.state_description = base.state_description ∧
      r.kernel_id = base.kernel_id ∧ r.ramdisk_id = base.ramdisk_id) ∧
    (∀ r ∈ out, st.macCtr ≤ r.mac_address) ∧
    List.Pairwise (fun r q => r.mac_address < q.mac_address) out ∧
    st6.instances = st.instances ++ out ∧
    st6.casts = st.casts ++ out.map (fun r => runInstanceMsg env.flags r.id) ∧
    st.macCtr ≤ st6.macCtr ∧
    Store.WF st6 := by
  intro nums
  induction nums with
  | nil =>
      intro st st6 out hWF hrun
      simp only [run_loop, Prod.mk.injEq, Except.ok.injEq] at hrun
      obtain ⟨h6, ho⟩ := hrun
      subst h6
      subst ho
      refine ⟨rfl, ?_, ?_, ?_, ?_, by simp, by simp, Nat.le_refl _, hWF⟩
      · intro i hi hn
        exact absurd hi (by simp)
      · intro r hr
        exact absurd hr (by simp)
      · intro r hr
        exact absurd hr (by simp)
      · exact List.Pairwise.nil
  | cons num rest ih =>
      intro st st6 out hWF hrun
      simp only [run_loop] at hrun
      split at hrun
      next st5 e heq => simp at hrun
      next st5 inst2 heq =>
          obtain ⟨hinst2, hst5⟩ :=
            run_one_ok env ctx base sgs gh num st st5 inst2 hWF heq
          have h5i : st5.instances = st.instances ++ [inst2] := by
            rw [hst5]
          have h5c : st5.casts = st.casts ++ [runInstanceMsg env.flags st.nextId] := by
            rw [hst5]
          have h5m : st5.macCtr = st.macCtr + 1 := by rw [hst5]; rfl
          have h5n : st5.nextId = st.nextId + 1 := by rw [hst5]; rfl
          have h5N : st5.nextInternalId = st.nextInternalId + 1 := by rw [hst5]; rfl
          have hid : inst2.id = st.nextId := by rw [hinst2]; rfl
          have hiid : inst2.internal_id = st.nextInternalId := by rw [hinst2]; rfl
          have hli : inst2.launch_index = num := by rw [hinst2]; rfl
          have hmac : inst2.mac_address = st.macCtr := by rw [hinst2]; rfl
          have hfields : inst2.reservation_id = base.reservation_id ∧
              inst2.state_description = base.state_description ∧
              inst2.kernel_id = base.kernel_id ∧
              inst2.ramdisk_id = base.ramdisk_id := by
            rw [hinst2]
            exact ⟨rfl, rfl, rfl, rfl⟩
          have hWF5 : Store.WF st5 := by
            intro q hq
            rw [h5i] at hq
            rw [h5n, h5N]
            rcases List.mem_append.mp hq with hq | hq
            · obtain ⟨hq1, hq2⟩ := hWF q hq
              exact ⟨Nat.lt_succ_of_lt hq1, Nat.lt_succ_of_lt hq2⟩
            · rw [List.mem_singleton.mp hq, hid, hiid]
              exact ⟨Nat.lt_succ_self _, Nat.lt_succ_self _⟩
          split at hrun
          next st6b e2 heq2 => simp at hrun
          next st6b insts heq2 =>
              simp only [Prod.mk.injEq, Except.ok.injEq] at hrun
              obtain ⟨h6, ho⟩ := hrun
              obtain ⟨ihlen, ihget, ihfields, ihmac, ihpair, ihinst, ihcast,
                ihmacle, ihWF⟩ := ih st5 st6b insts hWF5 heq2
              subst h6
              subst ho
              refine ⟨by simp [ihlen], ?_, ?_, ?_, ?_, ?_, ?_, ?_, ihWF⟩
              · intro i hi hn
                cases i with
                | zero => exact hli
                | succ j =>
                    exact ihget j (by simpa using hi) (by simpa using hn)
              · intro r hr
                rcases List.mem_cons.mp hr with hr | hr
                · rw [hr]
                  exact hfields
                · exact ihfields r hr
              · intro r hr
                rcases List.mem_cons.mp hr with hr | hr
                · rw [hr, hmac]
                · calc st.macCtr ≤ st5.macCtr := by omega
                    _ ≤ r.mac_address := ihmac r hr
              · refine List.pairwise_cons.mpr ⟨?_, ihpair⟩
                intro q hq
                calc inst2.mac_address = st.macCtr := hmac
                  _ < st5.macCtr := by omega
                  _ ≤ q.mac_address := ihmac q hq
              · rw [ihinst, h5i]
                simp
              · rw [ihcast, h5c, hid.symm]
                simp
              · calc st.macCtr ≤ st5.macCtr := by omega
                  _ ≤ st6b.macCtr := ihmacle

/-!  Concrete fixtures for counterexamples and witnesses. -/

def flags0 : Flags :=
  { vpn_image_id := "vpn-img", null_kernel := "nokernel",
    scheduler_topic := "scheduler", compute_topic := "compute" }

def ctx0 : Context := { is_admin := false, user_id := "u1", project_id := "p1" }

def ctxAdmin : Context := { is_admin := true, user_id := "u1", project_id := "p1" }

def inst0 : Instance :=
  { id := 1, internal_id := 1, reservation_id := 0, image_id := "img-1",
    kernel_id := "", ramdisk_id := "", state_description := "scheduling",
    state := 0, user_id := "u1", project_id := "p1", launch_time := "t0",
    instance_type := "m1.small", memory_mb := 2048, vcpus := 1,
    local_gb := 20, display_name := "", display_description := "",
    user_data := "", key_name := none, key_data := none, locked := false,
    mac_address := 0, launch_index := 0, hostname := "1", host := "",
    terminated_at := none }

def store0 : Store :=
  { instances := [], security_groups := [], instance_security_groups := [],
    key_pairs := [], images := [], casts := [], nextId := 1,
    nextInternalId := 1, nextGroupId := 1, macCtr := 0, uidCtr := 0,
    launch_clock := "t0", now := 5 }

/-- A store holding one locked, placed instance. -/
def stLocked : Store :=
  { store0 with instances := [{ inst0 with locked := true, host := "h1" }],
                nextId := 2, nextInternalId := 2 }

/-- Quota function admitting nothing, for the C3 witness. -/
def envZero : Env :=
  { flags := flags0, allowed_instances := fun _ _ _ => 0,
    instance_types := [("m1.small", { memory_mb := 2048, vcpus := 1, local_gb := 20 })] }

/-- Quota function admitting three instances. -/
def envQ3 : Env :=
  { flags := flags0, allowed_instances := fun _ _ _ => 3,
    instance_types := [("m1.small", { memory_mb := 2048, vcpus := 1, local_gb := 20 })] }

/-- Quota function admitting two instances, for the C2 witness. -/
def envQ2 : Env :=
  { flags := flags0, allowed_instances := fun _ _ _ => 2,
    instance_types := [("m1.small", { memory_mb := 2048, vcpus := 1, local_gb := 20 })] }

/-- Quota function admitting one instance, for the C5 fixtures. -/
def envQ1 : Env :=
  { flags := flags0, allowed_instances := fun _ _ _ => 1,
    instance_types := [("m1.small", { memory_mb := 2048, vcpus := 1, local_gb := 20 })] }

/-- A store holding one locked instance already terminating. -/
def stTermLocked : Store :=
  { store0 with
      instances := [{ inst0 with state_description := "terminating", locked := true }],
      nextId := 2, nextInternalId := 2 }

/-- A store holding one unlocked instance already terminating. -/
def stTerm : Store :=
  { store0 with
      instances := [{ inst0 with state_description := "terminating" }],
      nextId := 2, nextInternalId := 2 }

/-- A store holding one unlocked, unplaced instance. -/
def stNoHost : Store :=
  { store0 with instances := [inst0], nextId := 2, nextInternalId := 2 }

/-- A store whose only record has primary id 2 but internal id 1, with no
record whose internal id is 2; the nested lock lookup of delete cannot
resolve the primary id. -/
def stMismatch : Store :=
  { store0 with instances := [{ inst0 with id := 2 }], nextId := 3,
                nextInternalId := 2 }

/-- A store carrying the image img-1 with no kernel metadata and no
security groups yet. -/
def st9 : Store :=
  { store0 with images := [("img-1", { kernelId := none, ramdiskId := none })] }

/-- A store ready for a successful two-instance create: image present,
default security group present. -/
def st2w : Store :=
  { store0 with
      images := [("img-1", { kernelId := none, ramdiskId := none })],
      security_groups := [{ id := 1, name := "default", description := "default",
                            user_id := "u1", project_id := "p1" }],
      nextGroupId := 2 }

/-- A store for the C5 counterexample: the image's metadata names the
null-kernel sentinel, and the caller-supplied kernel image k1 exists. -/
def st5w : Store :=
  { store0 with
      images := [("img-1", { kernelId := some "nokernel", ramdiskId := none }),
                 ("k1", { kernelId := none, ramdiskId := none })],
      security_groups := [{ id := 1, name := "default", description := "default",
                            user_id := "u1", project_id := "p1" }],
      nextGroupId := 2 }

/-- The result of the concrete two-instance create used by the C2
witness. -/
def C2res : Store × Except Err (List Instance) :=
  create_instances envQ2 ctx0 "m1.small" "img-1" 2 3 none none "" ""
    none none .noneArg none generate_default_hostname st2w

/-- The record list returned by the concrete two-instance create. -/
def C2out : List Instance :=
  match C2res.2 with
  | .ok l => l
  | .error _ => []

/-- The result of the concrete create used by the C5 counterexample: the
image metadata names the null-kernel sentinel but the caller supplies
kernel_id k1. -/
def C5res : Store × Except Err (List Instance) :=
  create_instances envQ1 ctx0 "m1.small" "img-1" 1 1 (some "k1") none "" ""
    none none .noneArg none generate_default_hostname st5w

/-- The kernel and ramdisk ids of the records a create returned, when it
succeeded. -/
def created_kernel_ids (res : Store × Except Err (List Instance)) :
    Option (List (String × String)) :=
  match res.2 with
  | .ok l => some (l.map (fun r => (r.kernel_id, r.ramdisk_id)))
  | .error _ => none

/-- The result of the concrete create used by the C5 witness: no
caller-supplied kernel, image metadata naming the null-kernel
sentinel. -/
def C5bres : Store × Except Err (List Instance) :=
  create_instances envQ1 ctx0 "m1.small" "img-1" 1 1 none none "" ""
    none none .noneArg none generate_default_hostname st5w

/-- The record list returned by the C5 witness create. -/
def C5bout : List Instance :=
  match C5bres.2 with
  | .ok l => l
  | .error _ => []

/-!  C3: quota admission failure. -/

/-- C3: when the requested minimum count exceeds the quota gate's
admissible count, create_instances fails with the quota error carrying
the admissible count and the reason code, and the store is returned
completely unchanged: no instance record is persisted and no message is
dispatched. -/
theorem C3_quota_exceeded (env : Env) (ctx : Context)
    (instance_type image_id : String) (min_count max_count : Nat)
    (kernel_id ramdisk_id : Option String) (dn desc : String)
    (kn kd : Option String) (sg : SecGroupArg) (ud : Option String)
    (gh : Nat → String) (st : Store)
    (h : env.allowed_instances ctx max_count instance_type < min_count) :
    create_instances env ctx instance_type image_id min_count max_count
        kernel_id ramdisk_id dn desc kn kd sg ud gh st =
      (st, .error (.quotaError
        (env.allowed_instances ctx max_count instance_type)
        "InstanceLimitExceeded")) := by
  unfold create_instances
  rw [if_pos h]

/-- Witness for C3 at a concrete input: quota admits 0, minimum is 1. -/
theorem C3_witness :
    create_instances envZero ctx0 "m1.small" "img-1" 1 1 none none "" ""
        none none .noneArg none generate_default_hostname store0 =
      (store0, .error (.quotaError 0 "InstanceLimitExceeded")) :=
  C3_quota_exceeded envZero ctx0 "m1.small" "img-1" 1 1 none none "" ""
    none none .noneArg none generate_default_hostname store0 (by decide)

/-!  C8: a NotFound from the store is downgraded by the guard. -/

/-- C8: when the instance identifier resolves to no record, the store's
lookup inside get_lock raises NotFound, but the decorator's bare except
clause swallows it and raises its generic argument error instead, so the
lock-guarded operations fail with the generic invocation error, not with
the store's NotFound.  This refutes the claim as a statement about the
code; the claim describes the intended propagation policy. -/
theorem C8_notfound_downgraded (flags : Flags) (ctx : Context) (iid : Nat)
    (st : Store) (kw : UpdateFields) (h : lookup_internal st iid = none) :
    reboot flags ctx iid st = (st, .error .argError) ∧
    (reboot flags ctx iid st).2 ≠ .error .notFound ∧
    delete_instance flags ctx iid st = (st, .error .argError) ∧
    update_instance ctx iid kw st = (st, .error .argError) := by
  have hgl := get_lock_of_none ctx iid st h
  refine ⟨?_, ?_, ?_, ?_⟩
  · exact guard_notfound "reboot" (host_cast_unchecked "reboot_instance" flags)
      ctx iid st .notFound hgl
  · rw [reboot, guard_notfound "reboot" (host_cast_unchecked "reboot_instance" flags)
      ctx iid st .notFound hgl]
    simp
  · exact guard_notfound "delete_instance" (delete_instance_unchecked flags)
      ctx iid st .notFound hgl
  · exact guard_notfound "update_instance" (update_instance_unchecked kw)
      ctx iid st .notFound hgl

/-- Witness for C8: reboot of the absent instance 7 on the empty store
fails with the generic argument error. -/
theorem C8_witness :
    reboot flags0 ctx0 7 store0 = (store0, .error .argError) :=
  (C8_notfound_downgraded flags0 ctx0 7 store0 (hostnameUpdate "x") rfl).1

/-!  C1: the lock guard over the mutating operations. -/

/-- C1 counterexample: lock is listed by the claim among the operations
that an instance with locked = true rejects from a non-administrative
context, but lock is not decorated with checks_instance_lock in the
source: invoked by a non-admin caller on a locked instance it succeeds
and dispatches a lock_instance message. -/
theorem C1_counterexample :
    (lock flags0 ctx0 1 stLocked).2 = .ok () ∧
    (lock flags0 ctx0 1 stLocked).1.casts =
      [{ key := "compute.h1", method := "lock_instance", instance_id := 1,
         topicArg := none }] ∧
    ctx0.is_admin = false := by
  exact ⟨rfl, rfl, rfl⟩

/-- C1 (amended): for the nine operations actually decorated with
checks_instance_lock (update_instance, delete_instance, reboot, pause,
unpause, suspend, resume, rescue, unrescue), a call on a locked instance
from a non-administrative context fails with the locked-instance error
and leaves the store unchanged (nothing dispatched), and a call from an
administrative context invokes the underlying operation with its result
unaltered; lock and unlock are not decorated and always invoke their
underlying cast directly. -/
theorem C1_lock_guard (flags : Flags) (ctx : Context) (iid : Nat)
    (st : Store) (kw : UpdateFields)
    (hlocked : get_lock ctx iid st = .ok true) :
    (ctx.is_admin = false →
      update_instance ctx iid kw st = (st, .error (.lockError "update_instance")) ∧
      delete_instance flags ctx iid st = (st, .error (.lockError "delete_instance")) ∧
      reboot flags ctx iid st = (st, .error (.lockError "reboot")) ∧
      pause flags ctx iid st = (st, .error (.lockError "pause")) ∧
      unpause flags ctx iid st = (st, .error (.lockError "unpause")) ∧
      suspend flags ctx iid st = (st, .error (.lockError "suspend")) ∧
      resume flags ctx iid st = (st, .error (.lockError "resume")) ∧
      rescue flags ctx iid st = (st, .error (.lockError "rescue")) ∧
      unrescue flags ctx iid st = (st, .error (.lockError "unrescue"))) ∧
    (ctx.is_admin = true →
      update_instance ctx iid kw st = update_instance_unchecked kw ctx iid st ∧
      delete_instance flags ctx iid st = delete_instance_unchecked flags ctx iid st ∧
      reboot flags ctx iid st = host_cast_unchecked "reboot_instance" flags ctx iid st ∧
      pause flags ctx iid st = host_cast_unchecked "pause_instance" flags ctx iid st ∧
      unpause flags ctx iid st = host_cast_unchecked "unpause_instance" flags ctx iid st ∧
      suspend flags ctx iid st = host_cast_unchecked "suspend_instance" flags ctx iid st ∧
      resume flags ctx iid st = host_cast_unchecked "resume_instance" flags ctx iid st ∧
      rescue flags ctx iid st = host_cast_unchecked "rescue_instance" flags ctx iid st ∧
      unrescue flags ctx iid st = host_cast_unchecked "unrescue_instance" flags ctx iid st) ∧
    (lock flags ctx iid st = host_cast_unchecked "lock_instance" flags ctx iid st ∧
     unlock flags ctx iid st = host_cast_unchecked "unlock_instance" flags ctx iid st) := by
  refine ⟨fun ha => ?_, fun ha => ?_, rfl, rfl⟩
  · exact ⟨guard_locked_nonadmin _ _ ctx iid st hlocked ha,
      guard_locked_nonadmin _ _ ctx iid st hlocked ha,
      guard_locked_nonadmin _ _ ctx iid st hlocked ha,
      guard_locked_nonadmin _ _ ctx iid st hlocked ha,
      guard_locked_nonadmin _ _ ctx iid st hlocked ha,
      guard_locked_nonadmin _ _ ctx iid st hlocked ha,
      guard_locked_nonadmin _ _ ctx iid st hlocked ha,
      guard_locked_nonadmin _ _ ctx iid st hlocked ha,
      guard_locked_nonadmin _ _ ctx iid st hlocked ha⟩
  · exact ⟨guard_admin _ _ ctx iid st true hlocked ha,
      guard_admin _ _ ctx iid st true hlocked ha,
      guard_admin _ _ ctx iid st true hlocked ha,
      guard_admin _ _ ctx iid st true hlocked ha,
      guard_admin _ _ ctx iid st true hlocked ha,
      guard_admin _ _ ctx iid st true hlocked ha,
      guard_admin _ _ ctx iid st true hlocked ha,
      guard_admin _ _ ctx iid st true hlocked ha,
      guard_admin _ _ ctx iid st true hlocked ha⟩

/-- Witness for C1 at a concrete input: a non-admin reboot of the locked
instance fails with the locked-instance error. -/
theorem C1_witness :
    reboot flags0 ctx0 1 stLocked = (stLocked, .error (.lockError "reboot")) :=
  ((C1_lock_guard flags0 ctx0 1 stLocked (hostnameUpdate "x") rfl).1 rfl).2.2.1

/-!  C4: idempotent delete of a terminating instance. -/

/-- C4 counterexample: delete of an instance whose state_description is
already terminating is claimed to always return successfully, but when
the instance is locked and the caller non-administrative the lock guard
rejects the call with an error before the idempotence check is
reached. -/
theorem C4_counterexample :
    (delete_instance flags0 ctx0 1 stTermLocked).2 =
      .error (.lockError "delete_instance") ∧
    ctx0.is_admin = false := by
  exact ⟨rfl, rfl⟩

/-- C4 (amended): provided the lock guard admits the call (the context is
administrative or the instance is unlocked), delete of an instance whose
state_description is already terminating is a silent no-op: it returns
successfully and the store is completely unchanged, so no update is
performed, terminated_at is not advanced, no record is destroyed and no
message is dispatched. -/
theorem C4_idempotent_delete (flags : Flags) (ctx : Context) (iid : Nat)
    (st : Store) (r : Instance)
    (hlook : lookup_internal st iid = some r)
    (hterm : r.state_description = "terminating")
    (hguard : ctx.is_admin = true ∨ r.locked = false) :
    delete_instance flags ctx iid st = (st, .ok ()) := by
  have hgl := get_lock_of_lookup ctx iid st r hlook
  have hbody : delete_instance_unchecked flags ctx iid st = (st, .ok ()) := by
    unfold delete_instance_unchecked instance_get_by_internal_id
    rw [hlook]
    simp [hterm]
  rcases hguard with ha | hl
  · rw [delete_instance, guard_admin _ _ ctx iid st r.locked hgl ha, hbody]
  · rw [hl] at hgl
    rw [delete_instance, guard_unlocked _ _ ctx iid st hgl, hbody]

/-- Witness for C4 at a concrete input: a non-admin delete of an
unlocked terminating instance is a no-op. -/
theorem C4_witness :
    delete_instance flags0 ctx0 1 stTerm = (stTerm, .ok ()) :=
  C4_idempotent_delete flags0 ctx0 1 stTerm
    { inst0 with state_description := "terminating" } rfl rfl (Or.inr rfl)

/-!  C6: routing of the fire-and-forget dispatches. -/

/-- C6 counterexample: reboot of an instance with no assigned host is
claimed to dispatch to the fleet-wide scheduler queue, but the code
always derives the routing key from the compute topic and the (empty)
host, never from the scheduler topic. -/
theorem C6_counterexample :
    (reboot flags0 ctx0 1 stNoHost).2 = .ok () ∧
    (reboot flags0 ctx0 1 stNoHost).1.casts =
      [{ key := "compute.", method := "reboot_instance", instance_id := 1,
         topicArg := none }] ∧
    "compute." ≠ flags0.scheduler_topic := by
  refine ⟨rfl, rfl, by decide⟩

/-- C6 (amended): every admitted reboot dispatches one reboot_instance
message whose routing key is the compute-topic queue derived from the
instance's host field, whether or not a host is assigned; the scheduler
queue is never used by reboot. -/
theorem C6_reboot_routing (flags : Flags) (ctx : Context) (iid : Nat)
    (st : Store) (r : Instance)
    (hlook : lookup_internal st iid = some r)
    (hguard : ctx.is_admin = true ∨ r.locked = false) :
    reboot flags ctx iid st =
      (rpc_cast { key := queue_get_for ctx flags.compute_topic r.host,
                  method := "reboot_instance", instance_id := r.id,
                  topicArg := none } st, .ok ()) := by
  have hgl := get_lock_of_lookup ctx iid st r hlook
  have hbody : host_cast_unchecked "reboot_instance" flags ctx iid st =
      (rpc_cast { key := queue_get_for ctx flags.compute_topic r.host,
                  method := "reboot_instance", instance_id := r.id,
                  topicArg := none } st, .ok ()) := by
    unfold host_cast_unchecked instance_get_by_internal_id
    rw [hlook]
  rcases hguard with ha | hl
  · rw [reboot, guard_admin _ _ ctx iid st r.locked hgl ha, hbody]
  · rw [hl] at hgl
    rw [reboot, guard_unlocked _ _ ctx iid st hgl, hbody]

/-- Witness for C6 at a concrete input: reboot of the unplaced instance
dispatches to the compute queue of the empty host. -/
theorem C6_witness :
    reboot flags0 ctx0 1 stNoHost =
      (rpc_cast { key := queue_get_for ctx0 flags0.compute_topic "",
                  method := "reboot_instance", instance_id := 1,
                  topicArg := none } stNoHost, .ok ()) :=
  C6_reboot_routing flags0 ctx0 1 stNoHost inst0 rfl (Or.inr rfl)

/-!  Elimination of a successful create into its stages. -/

theorem create_ok_elim (env : Env) (ctx : Context)
    (instance_type image_id : String) (min_count max_count : Nat)
    (kernel_id ramdisk_id : Option String) (dn desc : String)
    (kn kd : Option String) (sg : SecGroupArg) (ud : Option String)
    (gh : Nat → String) (st st2 : Store) (out : List Instance)
    (hrun : create_instances env ctx instance_type image_id min_count
      max_count kernel_id ramdisk_id dn desc kn kd sg ud gh st
      = (st2, .ok out)) :
    min_count ≤ env.allowed_instances ctx max_count instance_type ∧
    ∃ kr gids kd2 p,
      resolve_boot env.flags ctx image_id kernel_id ramdisk_id st = .ok kr ∧
      resolve_group_ids ctx (normalize_security_group sg)
        (ensure_default_security_group ctx st) = .ok gids ∧
      resolve_key_data ctx kn kd (ensure_default_security_group ctx st) = .ok kd2 ∧
      env.instance_types.find? (fun q => q.1 == instance_type) = some p ∧
      run_loop env ctx
        (mkBase ctx instance_type image_id kr.1 kr.2 dn desc kn kd2 ud p.2
          (generate_uid (ensure_default_security_group ctx st)).1
          (ensure_default_security_group ctx st).launch_clock)
        gids gh
        (List.range (env.allowed_instances ctx max_count instance_type))
        (generate_uid (ensure_default_security_group ctx st)).2
        = (st2, .ok out) := by
  simp only [create_instances] at hrun
  by_cases hq : env.allowed_instances ctx max_count instance_type < min_count
  · rw [if_pos hq] at hrun
    simp at hrun
  · rw [if_neg hq] at hrun
    refine ⟨Nat.not_lt.mp hq, ?_⟩
    split at hrun
    next e heq => simp at hrun
    next kr heq =>
      split at hrun
      next e heq2 => simp at hrun
      next gids heq2 =>
        split at hrun
        next e heq3 => simp at hrun
        next kd2 heq3 =>
          split at hrun
          next heq4 => simp at hrun
          next p heq4 =>
            exact ⟨kr, gids, kd2, p, heq, heq2, heq3, heq4, hrun⟩

/-!  C2: successful batch create. -/

/-- C2: for every successful create whose quota gate admits a instances,
exactly a records are created (appended to the store in creation order
and returned), all sharing one reservation_id, with launch_index exactly
0..a-1, pairwise distinct generated mac addresses, state_description
scheduling, and exactly one run_instance message cast to the scheduler
routing key per created record. -/
theorem C2_create_batch (env : Env) (ctx : Context)
    (instance_type image_id : String) (min_count max_count : Nat)
    (kernel_id ramdisk_id : Option String) (dn desc : String)
    (kn kd : Option String) (sg : SecGroupArg) (ud : Option String)
    (gh : Nat → String) (st st2 : Store) (out : List Instance)
    (hWF : Store.WF st)
    (hrun : create_instances env ctx instance_type image_id min_count
      max_count kernel_id ramdisk_id dn desc kn kd sg ud gh st
      = (st2, .ok out)) :
    out.length = env.allowed_instances ctx max_count instance_type ∧
    min_count ≤ env.allowed_instances ctx max_count instance_type ∧
    (∀ (i : Nat) (hi : i < out.length), (out.get ⟨i, hi⟩).launch_index = i) ∧
    (∀ r ∈ out, ∀ q ∈ out, r.reservation_id = q.reservation_id) ∧
    List.Pairwise (fun r q => r.mac_address ≠ q.mac_address) out ∧
    (∀ r ∈ out, r.state_description = "scheduling") ∧
    st2.instances = st.instances ++ out ∧
    st2.casts = st.casts ++ out.map (fun r => runInstanceMsg env.flags r.id) := by
  obtain ⟨hmin, kr, gids, kd2, p, hb, hg, hk, hf, hloop⟩ :=
    create_ok_elim env ctx instance_type image_id min_count max_count
      kernel_id ramdisk_id dn desc kn kd sg ud gh st st2 out hrun
  have hpre := ensure_default_preserves ctx st
  have hLinst : (generate_uid (ensure_default_security_group ctx st)).2.instances
      = st.instances := hpre.1
  have hLcast : (generate_uid (ensure_default_security_group ctx st)).2.casts
      = st.casts := hpre.2.1
  have hLnext : (generate_uid (ensure_default_security_group ctx st)).2.nextId
      = st.nextId := hpre.2.2.1
  have hLnextI : (generate_uid (ensure_default_security_group ctx st)).2.nextInternalId
      = st.nextInternalId := hpre.2.2.2.1
  have hWFL : Store.WF (generate_uid (ensure_default_security_group ctx st)).2 := by
    intro q hq
    rw [hLinst] at hq
    rw [hLnext, hLnextI]
    exact hWF q hq
  obtain ⟨hlen, hget, hfields, _, hpair, hinst, hcast, _, _⟩ :=
    run_loop_ok env ctx _ gids gh _ _ st2 out hWFL hloop
  refine ⟨by simpa using hlen, hmin, ?_, ?_, ?_, ?_, ?_, ?_⟩
  · intro i hi
    have hn : i < (List.range (env.allowed_instances ctx max_count instance_type)).length := by
      rw [← hlen]
      exact hi
    rw [hget i hi hn]
    simp
  · intro r hr q hq
    rw [(hfields r hr).1, (hfields q hq).1]
  · exact hpair.imp (fun h => Nat.ne_of_lt h)
  · intro r hr
    rw [(hfields r hr).2.1]
    rfl
  · rw [hinst, hLinst]
  · rw [hcast, hLcast]

/-- Witness for C2 at a concrete input: a create with min 2, max 3 and a
quota admitting 2 yields two records appended to the store with two
scheduler casts. -/
theorem C2_witness :
    C2out.length = envQ2.allowed_instances ctx0 3 "m1.small" ∧
    C2res.1.instances = st2w.instances ++ C2out ∧
    C2res.1.casts = st2w.casts ++ C2out.map (fun r => runInstanceMsg envQ2.flags r.id) := by
  have h := C2_create_batch envQ2 ctx0 "m1.small" "img-1" 2 3 none none
    "" "" none none .noneArg none generate_default_hostname st2w
    C2res.1 C2out (by decide) rfl
  exact ⟨h.1, h.2.2.2.2.2.2.1, h.2.2.2.2.2.2.2⟩

/-!  C5: the null-kernel sentinel. -/

/-- C5 counterexample: the looked-up image's metadata names the
null-kernel sentinel (nokernel), yet because the caller supplied
kernel_id k1 the created record's kernel_id is k1, not empty: the
sentinel check tests the resolved kernel_id, which a caller-supplied
value bypasses. -/
theorem C5_counterexample :
    created_kernel_ids C5res = some [("k1", "")] ∧
    ("k1" : String) ≠ "" ∧
    (st5w.images.find? (fun p => p.1 == "img-1")).map (fun p => p.2.kernelId)
      = some (some flags0.null_kernel) := by
  refine ⟨rfl, by decide, rfl⟩

/-- C5 (amended): when the caller does NOT supply a kernel_id and the
looked-up image's metadata names the null-kernel sentinel, every record
of a successful create has empty kernel_id and ramdisk_id, regardless of
the caller-supplied ramdisk_id. -/
theorem C5_null_kernel (env : Env) (ctx : Context)
    (instance_type image_id : String) (min_count max_count : Nat)
    (ramdisk_id : Option String) (dn desc : String)
    (kn kd : Option String) (sg : SecGroupArg) (ud : Option String)
    (gh : Nat → String) (st st2 : Store) (out : List Instance)
    (meta : ImageMeta) (hWF : Store.WF st)
    (hvpn : (image_id == env.flags.vpn_image_id) = false)
    (himg : image_show ctx image_id st = .ok meta)
    (hnull : meta.kernelId = some env.flags.null_kernel)
    (hrun : create_instances env ctx instance_type image_id min_count
      max_count none ramdisk_id dn desc kn kd sg ud gh st
      = (st2, .ok out)) :
    ∀ r ∈ out, r.kernel_id = "" ∧ r.ramdisk_id = "" := by
  have hboot : resolve_boot env.flags ctx image_id none ramdisk_id st
      = .ok (none, none) := by
    unfold resolve_boot
    rw [if_neg (by simp [hvpn]), himg]
    simp [hnull, check_image_access, truthy]
  obtain ⟨hmin, kr, gids, kd2, p, hb, hg, hk, hf, hloop⟩ :=
    create_ok_elim env ctx instance_type image_id min_count max_count
      none ramdisk_id dn desc kn kd sg ud gh st st2 out hrun
  rw [hboot] at hb
  injection hb with hb
  have hpre := ensure_default_preserves ctx st
  have hLinst : (generate_uid (ensure_default_security_group ctx st)).2.instances
      = st.instances := hpre.1
  have hLnext : (generate_uid (ensure_default_security_group ctx st)).2.nextId
      = st.nextId := hpre.2.2.1
  have hLnextI : (generate_uid (ensure_default_security_group ctx st)).2.nextInternalId
      = st.nextInternalId := hpre.2.2.2.1
  have hWFL : Store.WF (generate_uid (ensure_default_security_group ctx st)).2 := by
    intro q hq
    rw [hLinst] at hq
    rw [hLnext, hLnextI]
    exact hWF q hq
  obtain ⟨_, _, hfields, _, _, _, _, _, _⟩ :=
    run_loop_ok env ctx _ gids gh _ _ st2 out hWFL hloop
  intro r hr
  have h := hfields r hr
  rw [← hb] at h
  exact ⟨by rw [h.2.2.1]; rfl, by rw [h.2.2.2]; rfl⟩

/-- Witness for the amended C5 at a concrete input: with no
caller-supplied kernel and an image naming the null-kernel sentinel, the
created record's kernel and ramdisk are empty. -/
theorem C5_witness :
    (C5bout.getD 0 inst0).kernel_id = "" ∧
    (C5bout.getD 0 inst0).ramdisk_id = "" := by
  have h := C5_null_kernel envQ1 ctx0 "m1.small" "img-1" 1 1 none "" ""
    none none .noneArg none generate_default_hostname st5w
    C5bres.1 C5bout { kernelId := some "nokernel", ramdiskId := none }
    (by decide) (by decide) rfl rfl rfl
  have hmem : C5bout.getD 0 inst0 ∈ C5bout := by decide
  exact h (C5bout.getD 0 inst0) hmem

/-!  C9: unresolvable security group name. -/

/-- C9: when the quota gate and the boot spec resolution pass but a
requested security group name does not resolve within the caller's
project scope, create fails with NotFound; the only store change is the
idempotent creation of the default group, so no instance record is
persisted and no message is dispatched. -/
theorem C9_secgroup_notfound (env : Env) (ctx : Context)
    (instance_type image_id : String) (min_count max_count : Nat)
    (kernel_id ramdisk_id : Option String) (dn desc : String)
    (kn kd : Option String) (sg : SecGroupArg) (ud : Option String)
    (gh : Nat → String) (st : Store) (kr : Option String × Option String)
    (hq : min_count ≤ env.allowed_instances ctx max_count instance_type)
    (hboot : resolve_boot env.flags ctx image_id kernel_id ramdisk_id st = .ok kr)
    (hg : resolve_group_ids ctx (normalize_security_group sg)
            (ensure_default_security_group ctx st) = .error .notFound) :
    create_instances env ctx instance_type image_id min_count max_count
        kernel_id ramdisk_id dn desc kn kd sg ud gh st
      = (ensure_default_security_group ctx st, .error .notFound) ∧
    (ensure_default_security_group ctx st).instances = st.instances ∧
    (ensure_default_security_group ctx st).casts = st.casts := by
  refine ⟨?_, (ensure_default_preserves ctx st).1,
    (ensure_default_preserves ctx st).2.1⟩
  simp only [create_instances]
  rw [if_neg (Nat.not_lt.mpr hq)]
  simp only [hboot, hg]

/-- Witness for C9 at a concrete input: requesting the group nope, which
does not exist in project p1, fails the create with NotFound. -/
theorem C9_witness :
    create_instances envQ3 ctx0 "m1.small" "img-1" 1 3 none none "" ""
        none none (.one "nope") none generate_default_hostname st9
      = (ensure_default_security_group ctx0 st9, .error .notFound) :=
  (C9_secgroup_notfound envQ3 ctx0 "m1.small" "img-1" 1 3 none none "" ""
    none none (.one "nope") none generate_default_hostname st9
    (none, none) (by decide) rfl rfl).1

/-!  C7: delete routing for placed and unplaced instances. -/

/-- C7 counterexample: delete of a non-terminating unplaced instance is
claimed to always destroy the record directly, but when the record's
primary id (2) does not resolve as any record's internal id, the nested
lock check of the inner update_instance fails, delete raises the generic
argument error, and the record survives. -/
theorem C7_counterexample :
    (delete_instance flags0 ctx0 1 stMismatch).2 = .error .argError ∧
    (delete_instance flags0 ctx0 1 stMismatch).1.instances.length = 1 ∧
    (delete_instance flags0 ctx0 1 stMismatch).1.casts = [] := by
  exact ⟨rfl, rfl, rfl⟩

/-- C7 (amended): for every delete call that returns successfully on a
non-terminating instance: when the instance has no assigned host, its
record is destroyed in the store and no message is dispatched; when it
has a host, one terminate_instance message is cast to that host's compute
queue and the record remains in the store, updated to terminating. -/
theorem C7_delete_routing (flags : Flags) (ctx : Context) (iid : Nat)
    (st st2 : Store) (r : Instance)
    (hlook : lookup_internal st iid = some r)
    (hterm : r.state_description ≠ "terminating")
    (hrun : delete_instance flags ctx iid st = (st2, .ok ())) :
    (r.host = "" → (∀ q ∈ st2.instances, q.id ≠ r.id) ∧ st2.casts = st.casts) ∧
    (r.host ≠ "" →
      st2.casts = st.casts ++
        [{ key := queue_get_for ctx flags.compute_topic r.host,
           method := "terminate_instance", instance_id := r.id,
           topicArg := none }] ∧
      ∃ q ∈ st2.instances, q.id = r.id ∧ q.state_description = "terminating") := by
  have hgl := get_lock_of_lookup ctx iid st r hlook
  have hbody : delete_instance_unchecked flags ctx iid st = (st2, .ok ()) := by
    cases hL : r.locked with
    | false =>
        rw [hL] at hgl
        rw [delete_instance, guard_unlocked _ _ ctx iid st hgl] at hrun
        exact hrun
    | true =>
        rw [hL] at hgl
        by_cases ha : ctx.is_admin = true
        · rw [delete_instance, guard_admin _ _ ctx iid st true hgl ha] at hrun
          exact hrun
        · rw [delete_instance, guard_locked_nonadmin _ _ ctx iid st hgl
            (bool_eq_false_of_ne_true _ ha)] at hrun
          simp at hrun
  have htermb : (r.state_description == "terminating") = false := by
    simpa using hterm
  unfold delete_instance_unchecked instance_get_by_internal_id at hbody
  rw [hlook] at hbody
  simp only [htermb, Bool.false_eq_true, if_false] at hbody
  split at hbody
  next st1 e heq => simp at hbody
  next st1 iu heq =>
      obtain ⟨q0, hfind, hiu, hst1⟩ :=
        update_instance_ok_elim ctx r.id (terminatingUpdate st.now) st st1 iu heq
      have hq0mem : q0 ∈ st.instances := List.mem_of_find?_eq_some hfind
      have hq0id : q0.id = r.id := by
        have := List.find?_some hfind
        simpa using this
      by_cases hh : r.host = ""
      · have hh2 : (r.host != "") = false := by simp [hh]
        simp only [hh2, Bool.false_eq_true, if_false, Prod.mk.injEq] at hbody
        obtain ⟨hst2, _⟩ := hbody
        refine ⟨fun _ => ⟨?_, ?_⟩, fun hcon => absurd hh hcon⟩
        · intro q hq he
          rw [← hst2] at hq
          unfold instance_destroy at hq
          simp only [List.mem_filter] at hq
          have := hq.2
          rw [he] at this
          simp at this
        · rw [← hst2, hst1]
          rfl
      · have hh2 : (r.host != "") = true := by simpa using hh
        simp only [hh2, if_true, Prod.mk.injEq] at hbody
        obtain ⟨hst2, _⟩ := hbody
        refine ⟨fun hcon => absurd hcon hh, fun _ => ⟨?_, ?_⟩⟩
        · rw [← hst2, hst1]
          rfl
        · refine ⟨applyUpdates q0 (terminatingUpdate st.now), ?_, ?_, rfl⟩
          · rw [← hst2]
            show applyUpdates q0 (terminatingUpdate st.now) ∈ st1.instances
            rw [hst1]
            have heq0 : applyUpdates q0 (terminatingUpdate st.now) =
                (fun q => if q.id == r.id
                  then applyUpdates q (terminatingUpdate st.now) else q) q0 := by
              simp [hq0id]
            rw [heq0]
            exact List.mem_map_of_mem _ hq0mem
          · rw [applyUpdates_id, hq0id]

/-- Witness for the amended C7 at a concrete input: a successful delete
of the unplaced instance dispatches nothing. -/
theorem C7_witness :
    (delete_instance flags0 ctx0 1 stNoHost).1.casts = stNoHost.casts :=
  ((C7_delete_routing flags0 ctx0 1 stNoHost
    (delete_instance flags0 ctx0 1 stNoHost).1 inst0 rfl (by decide) rfl).1 rfl).2

/-!  C10: primary id passed where an internal id is expected. -/

/-- C10: create_instances and delete_instance call the lock-guarded
update_instance with the record's primary id, and the guard's get_lock
resolves its argument via instance_get_by_internal_id; hence when the
primary id resolves to no record's internal id the nested lock check
fails with the guard's argument error (first conjunct: update_instance
on an unresolvable id; third: delete on an otherwise admissible instance
whose primary id matches no internal id; fourth: create whose freshly
assigned primary id matches no internal id, which persists the record
and then fails), and when it resolves to a different record the guard's
decision is taken from that record's lock flag (second conjunct). -/
theorem C10_internal_id_confusion :
    (∀ (ctx : Context) (iid : Nat) (kw : UpdateFields) (st : Store),
      (∀ q ∈ st.instances, q.internal_id ≠ iid) →
      update_instance ctx iid kw st = (st, .error .argError)) ∧
    (∀ (ctx : Context) (iid : Nat) (kw : UpdateFields) (st : Store)
       (q : Instance),
      lookup_internal st iid = some q → q.locked = true →
      ctx.is_admin = false →
      update_instance ctx iid kw st = (st, .error (.lockError "update_instance"))) ∧
    (∀ (flags : Flags) (ctx : Context) (iid : Nat) (st : Store) (r : Instance),
      lookup_internal st iid = some r →
      (ctx.is_admin = true ∨ r.locked = false) →
      r.state_description ≠ "terminating" →
      (∀ q ∈ st.instances, q.internal_id ≠ r.id) →
      delete_instance flags ctx iid st = (st, .error .argError)) ∧
    (∀ (env : Env) (ctx : Context) (instance_type image_id : String)
       (min_count max_count : Nat) (kernel_id ramdisk_id : Option String)
       (dn desc : String) (kn kd : Option String) (sg : SecGroupArg)
       (ud : Option String) (gh : Nat → String) (st : Store),
      min_count ≤ env.allowed_instances ctx max_count instance_type →
      1 ≤ env.allowed_instances ctx max_count instance_type →
      (∃ kr, resolve_boot env.flags ctx image_id kernel_id ramdisk_id st = .ok kr) →
      (∃ gids, resolve_group_ids ctx (normalize_security_group sg)
        (ensure_default_security_group ctx st) = .ok gids) →
      (∃ kd2, resolve_key_data ctx kn kd
        (ensure_default_security_group ctx st) = .ok kd2) →
      (∃ p, env.instance_types.find? (fun q => q.1 == instance_type) = some p) →
      (∀ q ∈ st.instances, q.internal_id ≠ st.nextId) →
      st.nextInternalId ≠ st.nextId →
      (create_instances env ctx instance_type image_id min_count max_count
        kernel_id ramdisk_id dn desc kn kd sg ud gh st).2 = .error .argError ∧
      (create_instances env ctx instance_type image_id min_count max_count
        kernel_id ramdisk_id dn desc kn kd sg ud gh st).1.instances.length
        = st.instances.length + 1) := by
  have hlooknone : ∀ (st : Store) (i : Nat),
      (∀ q ∈ st.instances, q.internal_id ≠ i) → lookup_internal st i = none := by
    intro st i h
    unfold lookup_internal
    rw [List.find?_eq_none]
    intro x hx
    simpa using h x hx
  refine ⟨?_, ?_, ?_, ?_⟩
  · intro ctx iid kw st hmiss
    exact update_instance_lookup_none ctx iid kw st (hlooknone st iid hmiss)
  · intro ctx iid kw st q hlk hl ha
    have hgl := get_lock_of_lookup ctx iid st q hlk
    rw [hl] at hgl
    rw [update_instance]
    exact guard_locked_nonadmin _ _ ctx iid st hgl ha
  · intro flags ctx iid st r hlook houter hterm hmiss
    have hgl := get_lock_of_lookup ctx iid st r hlook
    have htermb : (r.state_description == "terminating") = false := by
      simpa using hterm
    have hbody : delete_instance_unchecked flags ctx iid st
        = (st, .error .argError) := by
      unfold delete_instance_unchecked instance_get_by_internal_id
      rw [hlook]
      simp only [htermb, Bool.false_eq_true, if_false]
      rw [update_instance_lookup_none ctx r.id (terminatingUpdate st.now) st
        (hlooknone st r.id hmiss)]
    rcases houter with ha | hl
    · rw [delete_instance, guard_admin _ _ ctx iid st r.locked hgl ha, hbody]
    · rw [hl] at hgl
      rw [delete_instance, guard_unlocked _ _ ctx iid st hgl, hbody]
  · intro env ctx instance_type image_id min_count max_count kernel_id
      ramdisk_id dn desc kn kd sg ud gh st hmin h1 hboot hgids hkey htype
      hmiss hneq
    obtain ⟨kr, hb⟩ := hboot
    obtain ⟨gids, hg⟩ := hgids
    obtain ⟨kd2, hk⟩ := hkey
    obtain ⟨p, hf⟩ := htype
    have hpre := ensure_default_preserves ctx st
    have hLinst : (generate_uid (ensure_default_security_group ctx st)).2.instances
        = st.instances := hpre.1
    have hLnext : (generate_uid (ensure_default_security_group ctx st)).2.nextId
        = st.nextId := hpre.2.2.1
    have hLnextI : (generate_uid (ensure_default_security_group ctx st)).2.nextInternalId
        = st.nextInternalId := hpre.2.2.2.1
    obtain ⟨m, hm⟩ : ∃ m, env.allowed_instances ctx max_count instance_type = m + 1 :=
      ⟨env.allowed_instances ctx max_count instance_type - 1, by omega⟩
    have hfail := run_one_guard_fail env ctx
      (mkBase ctx instance_type image_id kr.1 kr.2 dn desc kn kd2 ud p.2
        (generate_uid (ensure_default_security_group ctx st)).1
        (ensure_default_security_group ctx st).launch_clock)
      gids gh 0 (generate_uid (ensure_default_security_group ctx st)).2
      (by rw [hLinst, hLnext]; exact hmiss)
      (by rw [hLnextI, hLnext]; exact hneq)
    have hc : create_instances env ctx instance_type image_id min_count
        max_count kernel_id ramdisk_id dn desc kn kd sg ud gh st =
        (createStep
          (mkBase ctx instance_type image_id kr.1 kr.2 dn desc kn kd2 ud p.2
            (generate_uid (ensure_default_security_group ctx st)).1
            (ensure_default_security_group ctx st).launch_clock)
          gids 0 (generate_uid (ensure_default_security_group ctx st)).2,
         .error .argError) := by
      simp only [create_instances]
      rw [if_neg (Nat.not_lt.mpr hmin)]
      simp only [hb, hg, hk, hf]
      rw [hm, List.range_succ_eq_map]
      simp only [run_loop]
      rw [hfail]
    rw [hc]
    constructor
    · rfl
    · show (createStep _ gids 0 _).instances.length = st.instances.length + 1
      simp [createStep, hLinst]

/-- Witness for C10 at a concrete input: delete of the instance with
internal id 1 but primary id 2, which no record carries as an internal
id, fails with the guard's argument error and changes nothing. -/
theorem C10_witness :
    delete_instance flags0 ctx0 1 stMismatch = (stMismatch, .error .argError) :=
  C10_internal_id_confusion.2.2.1 flags0 ctx0 1 stMismatch
    { inst0 with id := 2 } rfl (Or.inr rfl) (by decide) (by decide)

end Nova
